import Mathlib

/-!
Verification development for the SOTE static-site content pipeline
(admin panel `part_000` and public content loader `part_001`).

The admin panel keeps a session-wide state object with GitHub credentials,
a per-document content cache of `(data, sha)` pairs, and an image listing,
and persists every mutation through the GitHub contents API.  The public
loader renders the same JSON documents.  Everything below is a shallow
embedding of those scripts: pure functions are translated directly, the
network is an explicit transport argument (a function from the request to
the response the GitHub API returns), and each event handler becomes an
explicit step function on the state it touches.
-/

/-! ## Data model

Records as constructed by the admin panel's save handlers
(`saveNews`, `saveProject`, `saveEvent` in `part_000`).  The `published`
field is kept as `Option Bool` because the JSON documents may omit it and
the loader tests `published !== false`; the admin panel always writes an
explicit boolean. -/

structure Article where
  id : String
  title : String
  date : String
  category : String
  image : String
  excerpt : String
  content : String
  featured : Bool
  published : Option Bool
deriving DecidableEq

/-- Event record (`saveEvent`, `renderEvents`).  `date` is embedded as the
numeric timestamp that `new Date(e.date)` evaluates to: the loader only ever
compares dates numerically (`>= now` and the sort comparator), and a valid
date string is sent to exactly one timestamp. -/
structure Event where
  id : String
  title : String
  date : Nat
  time : String
  location : String
  image : String
  description : String
  registrationLink : String
  featured : Bool
  published : Option Bool
deriving DecidableEq

structure Project where
  id : String
  title : String
  category : String
  location : String
  status : String
  startDate : Option String
  endDate : Option String
  image : String
  description : String
  fullDescription : String
  impact : List String
  featured : Bool
  published : Option Bool
deriving DecidableEq

/-! ## Collection CRUD engine

`saveNews` (part_000 lines 607-614) implements add-or-replace over the
articles array:

    const existingIndex = articles.findIndex(a => a.id === id);
    if (existingIndex >= 0) { articles[existingIndex] = article; }
    else { articles.unshift(article); }

`executeDelete` (lines 791, 797, 803) implements remove-by-id:

    const articles = state.content.news.data.articles.filter(a => a.id !== id);

`saveProject` and `saveEvent` repeat the same findIndex/replace/unshift
pattern verbatim over their own arrays; the engine is embedded once over
`Article`. -/

def upsert (articles : List Article) (a : Article) : List Article :=
  match articles.findIdx? (fun x => x.id == a.id) with
  | some i => articles.set i a
  | none => a :: articles

def removeById (articles : List Article) (id : String) : List Article :=
  articles.filter (fun a => a.id != id)

/-! ### Helper lemmas about the engine -/

theorem upsert_of_not_found {S : List Article} {a : Article}
    (h : ∀ x ∈ S, x.id ≠ a.id) : upsert S a = a :: S := by
  have hnone : S.findIdx? (fun x => x.id == a.id) = none := by
    rw [List.findIdx?_eq_none_iff]
    intro x hx
    simpa using h x hx
  simp [upsert, hnone]

theorem upsert_of_found {S : List Article} {a : Article} {i : Nat}
    (h : S.findIdx? (fun x => x.id == a.id) = some i) : upsert S a = S.set i a := by
  simp [upsert, h]

theorem list_set_self {α : Type} : ∀ (l : List α) (i : Nat) (v : α),
    l[i]? = some v → l.set i v = l
  | [], i, v, h => by simp at h
  | x :: xs, 0, v, h => by
    simp only [List.getElem?_cons_zero, Option.some.injEq] at h
    simp [h]
  | x :: xs, i + 1, v, h => by
    simp only [List.getElem?_cons_succ] at h
    simpa [List.set] using list_set_self xs i v h

/-- C2: `upsert` replaces in place when a record with the same id exists
(same length, the new record sits at the matched index, every other
position is untouched), and prepends otherwise (the new record becomes the
head of a list one longer). -/
theorem upsert_spec (S : List Article) (a : Article) :
    ((∀ x ∈ S, x.id ≠ a.id) →
      upsert S a = a :: S ∧ (upsert S a).length = S.length + 1 ∧
      (upsert S a).head? = some a) ∧
    (∀ i, S.findIdx? (fun x => x.id == a.id) = some i →
      (upsert S a).length = S.length ∧
      (S[i]?.map Article.id) = some a.id ∧
      (upsert S a)[i]? = some a ∧
      ∀ j, j ≠ i → (upsert S a)[j]? = S[j]?) := by
  constructor
  · intro h
    refine ⟨upsert_of_not_found h, ?_, ?_⟩ <;> simp [upsert_of_not_found h]
  · intro i hfind
    obtain ⟨hlt, hp, -⟩ := List.findIdx?_eq_some_iff_getElem.mp hfind
    have hid : S[i]?.map Article.id = some a.id := by
      rw [List.getElem?_eq_getElem hlt]
      simpa using hp
    rw [upsert_of_found hfind]
    refine ⟨List.length_set .., hid, ?_, ?_⟩
    · exact List.getElem?_set_self (by simpa using hlt)
    · intro j hj
      exact List.getElem?_set_ne (fun e => hj e.symm)

/-- C2 witness: a concrete replace (id already present, at index 0 of a
two-element list) and a concrete prepend (fresh id). -/
theorem upsert_spec_witness :
    (upsert [{ id := "news-2", title := "B", date := "", category := "",
               image := "", excerpt := "", content := "", featured := false,
               published := some true }]
       { id := "news-1", title := "A", date := "", category := "", image := "",
         excerpt := "", content := "", featured := false, published := some true } =
      [{ id := "news-1", title := "A", date := "", category := "", image := "",
         excerpt := "", content := "", featured := false, published := some true },
       { id := "news-2", title := "B", date := "", category := "", image := "",
         excerpt := "", content := "", featured := false, published := some true }]) ∧
    (upsert [{ id := "news-1", title := "old", date := "", category := "",
               image := "", excerpt := "", content := "", featured := false,
               published := some true },
             { id := "news-2", title := "B", date := "", category := "",
               image := "", excerpt := "", content := "", featured := false,
               published := some true }]
       { id := "news-1", title := "A", date := "", category := "", image := "",
         excerpt := "", content := "", featured := false, published := some true }).length = 2 := by
  constructor
  · exact ((upsert_spec _ _).1 (by decide)).1
  · exact ((upsert_spec _ _).2 0 (by decide)).1

/-- C9: if all ids in the collection are pairwise distinct, they still are
after an `upsert`: replacing in place keeps the id multiset unchanged, and
a prepend only happens when the id is absent. -/
theorem upsert_preserves_nodup (S : List Article) (a : Article)
    (h : (S.map Article.id).Nodup) : ((upsert S a).map Article.id).Nodup := by
  match hfind : S.findIdx? (fun x => x.id == a.id) with
  | none =>
    rw [upsert_of_not_found (by
      intro x hx
      have := List.findIdx?_eq_none_iff.mp hfind x hx
      simpa using this)]
    rw [List.map_cons, List.nodup_cons]
    refine ⟨?_, h⟩
    intro hmem
    obtain ⟨x, hx, hid⟩ := List.mem_map.mp hmem
    have := List.findIdx?_eq_none_iff.mp hfind x hx
    simp [hid] at this
  | some i =>
    obtain ⟨hlt, hp, -⟩ := List.findIdx?_eq_some_iff_getElem.mp hfind
    rw [upsert_of_found hfind, List.map_set]
    have : (S.map Article.id).set i a.id = S.map Article.id := by
      apply list_set_self
      rw [List.getElem?_map, List.getElem?_eq_getElem hlt]
      simpa using hp
    rw [this]
    exact h

/-- C9 witness: a concrete upsert over a two-element nodup collection. -/
theorem upsert_preserves_nodup_witness :
    ((upsert [{ id := "news-1", title := "old", date := "", category := "",
                image := "", excerpt := "", content := "", featured := false,
                published := some true },
              { id := "news-2", title := "B", date := "", category := "",
                image := "", excerpt := "", content := "", featured := false,
                published := some true }]
       { id := "news-1", title := "A", date := "", category := "", image := "",
         excerpt := "", content := "", featured := false,
         published := some true }).map Article.id).Nodup :=
  upsert_preserves_nodup _ _ (by decide)

theorem filter_idem {α : Type} (p : α → Bool) (l : List α) :
    (l.filter p).filter p = l.filter p := by
  rw [List.filter_filter]
  induction l with
  | nil => rfl
  | cons x xs ih => by_cases hp : p x <;> simp [List.filter_cons, hp, ih]

/-- C8: `removeById` drops exactly the records carrying the given id (every
survivor has a different id, every record with a different id survives),
is a no-op when the id is absent, and is idempotent. -/
theorem remove_spec (S : List Article) (id : String) :
    (∀ x ∈ removeById S id, x.id ≠ id) ∧
    (∀ x ∈ S, x.id ≠ id → x ∈ removeById S id) ∧
    ((∀ x ∈ S, x.id ≠ id) → removeById S id = S) ∧
    removeById (removeById S id) id = removeById S id := by
  refine ⟨?_, ?_, ?_, filter_idem _ _⟩
  · intro x hx
    have := (List.mem_filter.mp hx).2
    simpa using this
  · intro x hx hne
    exact List.mem_filter.mpr ⟨hx, by simpa using hne⟩
  · intro h
    apply List.filter_eq_self.mpr
    intro x hx
    simpa using h x hx

/-- C8 witness: deleting id "evt-5" from a two-element list keeps the other
record, and deleting again is a no-op. -/
theorem remove_spec_witness :
    removeById [{ id := "evt-9", title := "", date := "", category := "",
                  image := "", excerpt := "", content := "", featured := false,
                  published := some true }] "evt-5" =
      [{ id := "evt-9", title := "", date := "", category := "", image := "",
         excerpt := "", content := "", featured := false,
         published := some true }] :=
  (remove_spec _ "evt-5").2.2.1 (by decide)

/-! ## Remote document store client

`fetchContent`, `saveContent`, `loadImages`, `deleteImage` in `part_000`.
Each wraps one request against the GitHub contents API.  The network is an
explicit `transport` argument mapping the request the code builds to the
response the platform returns; the pure response-to-result mapping is
embedded separately so the error handling of each wrapper is visible. -/

structure Creds where
  username : String
  repo : String
  token : String
  branch : String
deriving DecidableEq

/-- The credentials `logout` resets the state to (part_000 line 83). -/
def emptyCreds : Creds := { username := "", repo := "", token := "", branch := "main" }

/-- One HTTP request as the admin panel builds it: the URL and the token
placed in the Authorization header.  Every wrapper builds its request
unconditionally from whatever credentials are in the state - there is no
credential check anywhere before the network call. -/
structure ApiRequest where
  url : String
  authToken : String
deriving DecidableEq

def contentsUrl (g : Creds) (path : String) : String :=
  "https://api.github.com/repos/" ++ g.username ++ "/" ++ g.repo ++ "/contents/" ++ path

/-- GET request of `fetchContent` / `loadImages` (part_000 lines 139-147, 198-206). -/
def fetchRequest (g : Creds) (path : String) : ApiRequest :=
  { url := contentsUrl g path ++ "?ref=" ++ g.branch, authToken := g.token }

/-- PUT/DELETE request of `saveContent` / `deleteImage` (lines 168-184, 883-898). -/
def saveRequest (g : Creds) (path : String) : ApiRequest :=
  { url := contentsUrl g path, authToken := g.token }

/-- Response to a contents GET: `ok` is a 2xx whose base64 body decodes and
parses to `data` (carrying revision `sha`); `notFound` is a 404;
`httpError` any other non-ok status; `netError` a rejected fetch or a
body that fails to decode or parse. -/
inductive ReadResponse (α : Type) where
  | ok (data : α) (sha : String)
  | notFound
  | httpError (status : Nat)
  | netError
deriving DecidableEq

/-- A cache entry as stored by the admin panel: `{ data, sha }`. -/
structure Fetched (α : Type) where
  data : α
  sha : String
deriving DecidableEq

/-- `fetchContent` (part_000 lines 135-163): a 404 returns null ("file
doesn't exist yet"); any other non-ok status throws, but the function's own
catch swallows the throw and also returns null, as it does for a network or
parse error.  So every failure collapses to `none` and the caller cannot
tell NotFound from a hard failure. -/
def fetchContentResult {α : Type} : ReadResponse α → Option (Fetched α)
  | .ok d s => some { data := d, sha := s }
  | .notFound => none
  | .httpError _ => none
  | .netError => none

def fetchContentOp {α : Type} (g : Creds) (path : String)
    (transport : ApiRequest → ReadResponse α) : Option (Fetched α) :=
  fetchContentResult (transport (fetchRequest g path))

/-- Response to a contents PUT: `ok` carries the new revision token
(`content.sha` of the response body); `err` is any non-ok status together
with the `message` field of its error body; `netError` a rejected fetch. -/
inductive WriteResponse where
  | ok (newSha : String)
  | err (status : Nat) (message : String)
  | netError
deriving DecidableEq

/-- `saveContent` (part_000 lines 165-192): a non-ok response of any status
is thrown as `new Error(error.message || 'Failed to save content')` - the
status code is never inspected, so a 409 revision conflict and any other
failure produce the same kind of value, distinguished at best by the
human-readable message text. -/
def saveContentResult : WriteResponse → Except String String
  | .ok s => .ok s
  | .err _ m => .error m
  | .netError => .error "Failed to fetch"

def saveContentOp (g : Creds) (path : String)
    (transport : ApiRequest → WriteResponse) : Except String String :=
  saveContentResult (transport (saveRequest g path))

/-- Modelled from the spec (sections 3, 4.1, 6): the hosting platform's
optimistic-concurrency check, which is external to the repository.  A write
must present the store's current revision token for the path (or none when
the path does not yet exist); a stale token is rejected with a 409 and the
store's message, a missing or superfluous token with a 422. -/
def storeWrite (current : Option String) (presented : Option String)
    (newSha : String) : WriteResponse :=
  match current, presented with
  | none, none => .ok newSha
  | some c, some p =>
      if p == c then .ok newSha
      else .err 409 "does not match expected revision"
  | some _, none => .err 422 "revision token required for existing file"
  | none, some _ => .err 422 "no existing file for presented revision"

structure ImageFile where
  path : String
  name : String
  sha : String
deriving DecidableEq

/-- The image filter of `loadImages` (line 210):
`/\.(jpg|jpeg|png|gif|webp|svg)$/i.test(f.name)` - the name,
case-insensitively, ends in one of the six image extensions. -/
def isImageName (name : String) : Bool :=
  let lower := name.data.map Char.toLower
  [".jpg", ".jpeg", ".png", ".gif", ".webp", ".svg"].any
    (fun ext => List.isSuffixOf ext.data lower)

inductive ListResponse where
  | ok (files : List ImageFile)
  | err (status : Nat)
  | netError
deriving DecidableEq

/-- `loadImages` (part_000 lines 194-215): on an ok listing the image files
replace the state's list; a non-ok status is silently ignored and a network
error swallowed by the catch - either way the old list is kept. -/
def loadImagesResult (old : List ImageFile) : ListResponse → List ImageFile
  | .ok files => files.filter (fun f => isImageName f.name)
  | .err _ => old
  | .netError => old

def loadImagesOp (g : Creds) (old : List ImageFile)
    (transport : ApiRequest → ListResponse) : List ImageFile :=
  loadImagesResult old (transport (fetchRequest g "images"))

inductive DeleteResponse where
  | ok
  | err (status : Nat)
  | netError
deriving DecidableEq

/-- `deleteImage` (part_000 lines 877-912): any non-ok response throws
`'Failed to delete image'`; the catch reports it.  `true` means success. -/
def deleteImageResult : DeleteResponse → Bool
  | .ok => true
  | .err _ => false
  | .netError => false

def deleteImageOp (g : Creds) (path : String)
    (transport : ApiRequest → DeleteResponse) : Bool :=
  deleteImageResult (transport (saveRequest g path))

/-! ## Content cache / session state

`state.content` in `part_000` holds one `{ data, sha }` pair per logical
document.  The collection document bodies use a different container key per
kind (`articles` / `projects` / `events`); the site configuration document
is the settings mapping written by `saveSettings`. -/

structure NewsData where
  articles : List Article
deriving DecidableEq

structure ProjectsData where
  projects : List Project
deriving DecidableEq

structure EventsData where
  events : List Event
deriving DecidableEq

structure Colors where
  primary : String
  primaryLight : String
  primaryDark : String
  secondary : String
  accent : String
  accentLight : String
deriving DecidableEq

structure Hero where
  badge : String
  title : String
  subtitle : String
deriving DecidableEq

structure Stat where
  value : String
  label : String
deriving DecidableEq

structure Contact where
  email : String
  phone : String
  address : String
deriving DecidableEq

structure Social where
  facebook : String
  twitter : String
  instagram : String
  linkedin : String
deriving DecidableEq

/-- The site configuration document body.  Optional sub-objects mirror the
JSON fields that `loadSettings`/`saveSettings` guard with `if (config.x)`
and `config.x?.y`. -/
structure Config where
  siteName : String
  siteTagline : String
  siteDescription : String
  colors : Option Colors
  hero : Option Hero
  stats : List Stat
  contact : Option Contact
  social : Option Social
deriving DecidableEq

/-- `state.content`: the four cached documents. -/
structure ContentState where
  siteConfig : Option (Fetched Config)
  news : Option (Fetched NewsData)
  projects : Option (Fetched ProjectsData)
  events : Option (Fetched EventsData)
deriving DecidableEq

/-- The values `updateSyncStatus` is called with (part_000 lines 946-958). -/
inductive SyncStatus where
  | synced
  | loading
  | saving
  | uploading
  | error
  | pending
deriving DecidableEq

/-- The responses the four parallel document reads of one Load-all come
back with. -/
structure LoadResponses where
  siteConfig : ReadResponse Config
  news : ReadResponse NewsData
  projects : ReadResponse ProjectsData
  events : ReadResponse EventsData

/-- `loadAllContent` (part_000 lines 106-133): the four reads run under
`Promise.all`, each result is assigned to its cache entry, then the status
is set to `synced`.  `fetchContent` catches every one of its own failures
and resolves `null` (`fetchContentResult`), and `loadImages` likewise
swallows its errors, so within the synchronization core no step of the
try-block can throw: the catch branch (toast + status `error`) is
unreachable and the batch always settles as `synced`, whatever the four
responses were.  (The rendering calls inside the try are presentation glue
outside this model.)  The previous cache content `c` is ignored - every
entry is overwritten with the fresh result. -/
def loadAllContent (c : ContentState) (r : LoadResponses) :
    ContentState × SyncStatus :=
  ( { siteConfig := fetchContentResult r.siteConfig
    , news := fetchContentResult r.news
    , projects := fetchContentResult r.projects
    , events := fetchContentResult r.events }
  , .synced )

/-! ## Sync orchestrator: save and delete steps

`saveNews` (part_000 lines 591-631).  The decisive detail: `articles` is
the very array object held by `state.content.news.data.articles` (when the
cache entry exists), and both `articles[existingIndex] = article` and
`articles.unshift(article)` mutate it in place *before* `saveContent` is
awaited.  On success the entry is replaced with the new body and the
write's returned sha; on a thrown failure the catch only shows a toast, so
the entry keeps its old sha but its body already contains the mutation.
When the cache entry is null the code starts from a fresh `[]` and the
entry stays null on failure. -/
def saveNewsStep (news : Option (Fetched NewsData)) (a : Article)
    (resp : WriteResponse) : Option (Fetched NewsData) × Bool :=
  let articles := match news with
    | some d => d.data.articles
    | none => []
  let newArticles := upsert articles a
  match saveContentResult resp with
  | .ok newSha => (some { data := { articles := newArticles }, sha := newSha }, true)
  | .error _ => (news.map (fun d => { data := { articles := newArticles }, sha := d.sha }), false)

/-- The JS `x || default` fallback used for the preserved color fields. -/
def optStrOr (s : Option String) (d : String) : String :=
  match s with
  | some v => if v == "" then d else v
  | none => d

/-- The form fields `saveSettings` reads from the settings inputs. -/
structure SettingsForm where
  siteName : String
  siteTagline : String
  siteDescription : String
  colorPrimary : String
  colorSecondary : String
  colorAccent : String
  heroBadge : String
  heroTitle : String
  heroSubtitle : String
  stat1Value : String
  stat1Label : String
  stat2Value : String
  stat2Label : String
  stat3Value : String
  stat3Label : String
  contactEmail : String
  contactPhone : String
  contactAddress : String
  socialFacebook : String
  socialTwitter : String
  socialInstagram : String
  socialLinkedin : String
deriving DecidableEq

/-- The gathering phase of `saveSettings` (part_000 lines 492-530): every
form value is written onto the cached config object (or onto a fresh `{}`
when no config is cached); the three preserved color fields fall back to
hard-coded defaults via `config.colors?.x || default`. -/
def gatherSettings (base : Option Config) (f : SettingsForm) : Config :=
  let oldColors := base.bind Config.colors
  { siteName := f.siteName
  , siteTagline := f.siteTagline
  , siteDescription := f.siteDescription
  , colors := some
      { primary := f.colorPrimary
      , primaryLight := optStrOr (oldColors.map Colors.primaryLight) "#2D7A5F"
      , primaryDark := optStrOr (oldColors.map Colors.primaryDark) "#0F2E25"
      , secondary := f.colorSecondary
      , accent := f.colorAccent
      , accentLight := optStrOr (oldColors.map Colors.accentLight) "#F4C77A" }
  , hero := some { badge := f.heroBadge, title := f.heroTitle, subtitle := f.heroSubtitle }
  , stats := [ { value := f.stat1Value, label := f.stat1Label }
             , { value := f.stat2Value, label := f.stat2Label }
             , { value := f.stat3Value, label := f.stat3Label } ]
  , contact := some { email := f.contactEmail, phone := f.contactPhone, address := f.contactAddress }
  , social := some { facebook := f.socialFacebook, twitter := f.socialTwitter
                   , instagram := f.socialInstagram, linkedin := f.socialLinkedin } }

/-- `saveSettings` (part_000 lines 491-542): the gather phase mutates the
cached config object in place (`config` aliases
`state.content.siteConfig.data`), then the document is written.  On
success the entry gets the gathered body and the new sha; on failure the
catch only shows a toast, so a cached entry keeps its sha but its body is
already the gathered config.  With no cached config the gather works on a
fresh object and the entry stays null on failure. -/
def saveSettingsStep (cfg : Option (Fetched Config)) (f : SettingsForm)
    (resp : WriteResponse) : Option (Fetched Config) × Bool :=
  let newCfg := gatherSettings (cfg.map Fetched.data) f
  match saveContentResult resp with
  | .ok newSha => (some { data := newCfg, sha := newSha }, true)
  | .error _ => (cfg.map (fun c => { data := newCfg, sha := c.sha }), false)

inductive DeleteKind where
  | news
  | project
  | event
deriving DecidableEq

/-- `executeDelete` (part_000 lines 784-818).  Unlike the save handlers it
builds the new collection with `filter`, which returns a *fresh* array, and
only assigns the cache entry after a successful write - so on failure the
cache is genuinely untouched.  The cache entry is accessed without optional
chaining (`state.content.news.data.articles`), so with a null entry the
handler throws before any network call; the catch reports it and the state
is unchanged. -/
def executeDeleteStep (c : ContentState) (kind : DeleteKind) (id : String)
    (resp : WriteResponse) : ContentState × Bool :=
  match kind with
  | .news =>
    match c.news with
    | none => (c, false)
    | some d =>
      let articles := removeById d.data.articles id
      match saveContentResult resp with
      | .ok newSha => ({ c with news := some { data := { articles := articles }, sha := newSha } }, true)
      | .error _ => (c, false)
  | .project =>
    match c.projects with
    | none => (c, false)
    | some d =>
      let projects := d.data.projects.filter (fun p => p.id != id)
      match saveContentResult resp with
      | .ok newSha => ({ c with projects := some { data := { projects := projects }, sha := newSha } }, true)
      | .error _ => (c, false)
  | .event =>
    match c.events with
    | none => (c, false)
    | some d =>
      let events := d.data.events.filter (fun e => e.id != id)
      match saveContentResult resp with
      | .ok newSha => ({ c with events := some { data := { events := events }, sha := newSha } }, true)
      | .error _ => (c, false)

/-! ## Credential/session gate -/

/-- The whole admin session state: in-memory credentials, content cache,
image listing, and the credential bundle in durable local storage under
`sote_admin_auth`. -/
structure AppState where
  github : Creds
  content : ContentState
  images : List ImageFile
  savedAuth : Option Creds
deriving DecidableEq

/-- `logout` (part_000 lines 81-86): removes the stored credential bundle
and resets `state.github`; the remaining lines only toggle which screen is
visible.  `state.content` and `state.images` are not touched. -/
def logout (st : AppState) : AppState :=
  { st with savedAuth := none, github := emptyCreds }

/-! ## Public site rendering order (`part_001`)

`renderNews` (lines 96-136) and `renderEvents` (lines 186-232) of the
content loader.  Only the selection and ordering of records is modelled;
producing markup from the selected records is presentation glue.  The JS
`options.limit` is truthy-tested, so limit `0` means "no limit".
`Array.prototype.sort` is stable and `renderEvents` sorts with the numeric
comparator `new Date(a.date) - new Date(b.date)`; a stable sort by a total
key is uniquely determined by the key, so it is embedded as insertion
sort over `date ≤ date`. -/

def applyLimit {α : Type} (limit : Nat) (l : List α) : List α :=
  if limit == 0 then l else l.take limit

def renderedNews (articles : List Article) (featuredOnly : Bool) (limit : Nat) :
    List Article :=
  let l1 := articles.filter (fun a => a.published != some false)
  let l2 := if featuredOnly then l1.filter (fun a => a.featured) else l1
  applyLimit limit l2

def renderedProjects (projects : List Project) (featuredOnly : Bool) (limit : Nat) :
    List Project :=
  let l1 := projects.filter (fun p => p.published != some false)
  let l2 := if featuredOnly then l1.filter (fun p => p.featured) else l1
  applyLimit limit l2

def renderedEvents (events : List Event) (now : Nat) (limit : Nat) : List Event :=
  let l1 := events.filter (fun e => e.published != some false && decide (now ≤ e.date))
  let l2 := List.insertionSort (fun a b => a.date ≤ b.date) l1
  applyLimit limit l2

theorem applyLimit_sublist {α : Type} (n : Nat) (l : List α) :
    (applyLimit n l).Sublist l := by
  unfold applyLimit
  split
  · exact List.Sublist.refl l
  · exact List.take_sublist n l

/-! ## Concrete demo values used by the claim evaluations -/

def artDemo : Article :=
  { id := "news-1", title := "Cleanup Day", date := "2024-05-01"
  , category := "Environment", image := "", excerpt := "", content := ""
  , featured := false, published := some true }

def artOther : Article :=
  { id := "news-2", title := "Tree Planting", date := "2024-04-01"
  , category := "Environment", image := "", excerpt := "", content := ""
  , featured := false, published := some true }

def cfgDemo : Config :=
  { siteName := "Old Name", siteTagline := "", siteDescription := ""
  , colors := none, hero := none, stats := [], contact := none, social := none }

def formDemo : SettingsForm :=
  { siteName := "New Name", siteTagline := "", siteDescription := ""
  , colorPrimary := "#1B4D3E", colorSecondary := "#4A9C6D", colorAccent := "#E8A849"
  , heroBadge := "", heroTitle := "", heroSubtitle := ""
  , stat1Value := "", stat1Label := "", stat2Value := "", stat2Label := ""
  , stat3Value := "", stat3Label := ""
  , contactEmail := "", contactPhone := "", contactAddress := ""
  , socialFacebook := "", socialTwitter := "", socialInstagram := ""
  , socialLinkedin := "" }

def cStateDemo : ContentState :=
  { siteConfig := none
  , news := some { data := { articles := [artOther] }, sha := "shaN" }
  , projects := none
  , events := none }

def imgDemo : ImageFile :=
  { path := "images/banner.png", name := "banner.png", sha := "shaImg" }

def credsDemo : Creds :=
  { username := "alice", repo := "site", token := "t0k", branch := "main" }

def stDemo : AppState :=
  { github := credsDemo
  , content := cStateDemo
  , images := [imgDemo]
  , savedAuth := some credsDemo }

def cEmpty : ContentState :=
  { siteConfig := none, news := none, projects := none, events := none }

def rOneHard : LoadResponses :=
  { siteConfig := .httpError 500
  , news := .ok { articles := [artOther] } "shaN"
  , projects := .notFound
  , events := .notFound }

def rAllMissing : LoadResponses :=
  { siteConfig := .notFound, news := .notFound
  , projects := .notFound, events := .notFound }

/-! ## Claim C1 -/

/-- C1: evaluation of the save/delete steps at a failing write.  A Conflict
response to `saveNews` leaves the cached news entry with its body already
holding the upserted article (the in-place `unshift`/index-assignment on
the aliased cached array is retained; only the sha is unchanged), and a
failed `saveSettings` likewise leaves the gathered config in the cached
body - contradicting the claim that a failed operation leaves the cache
entry's body unchanged and discards the pending mutation.  A failed
`executeDelete`, which copies with `filter` before writing, does leave the
cache untouched. -/
theorem saveNews_conflict_mutates_cache :
    saveNewsStep (some { data := { articles := [] }, sha := "shaOld" }) artDemo
        (.err 409 "does not match expected revision") =
      (some { data := { articles := [artDemo] }, sha := "shaOld" }, false) ∧
    ({ data := { articles := [artDemo] }, sha := "shaOld" } : Fetched NewsData) ≠
      { data := { articles := [] }, sha := "shaOld" } ∧
    (saveSettingsStep (some { data := cfgDemo, sha := "shaCfg" }) formDemo .netError).1 ≠
      some { data := cfgDemo, sha := "shaCfg" } ∧
    executeDeleteStep cStateDemo .news "news-2"
        (.err 409 "does not match expected revision") = (cStateDemo, false) := by
  refine ⟨rfl, by decide, by decide, rfl⟩

/-! ## Claim C3 -/

/-- C3 counterexample: the value `saveContent` hands the caller for the
store's 409 revision-conflict response is the very same value it hands for
a 500 server failure with the same message text - the status is never
inspected and there is no Conflict-specific constructor, so the caller
cannot tell a stale-copy rejection from a generic failure. -/
theorem conflict_indistinguishable :
    saveContentResult (storeWrite (some "abc") (some "stale") "newSha") =
      saveContentResult (.err 500 "does not match expected revision") ∧
    saveContentResult (storeWrite (some "abc") (some "stale") "newSha") =
      Except.error "does not match expected revision" := by
  constructor <;> rfl

/-- C3 amended: a write presenting a revision token different from the
store's current one is always rejected - the combined store check and
`saveContent` never produce an ok result, so there is no silent overwrite -
but what reaches the caller is a generic `Except.error` carrying only the
store's message text, not a distinct Conflict outcome. -/
theorem stale_write_rejected (current presented : Option String) (newSha s : String)
    (h : presented ≠ current) :
    saveContentResult (storeWrite current presented newSha) ≠ Except.ok s ∧
    ∀ st m, storeWrite current presented newSha = .err st m →
      saveContentResult (storeWrite current presented newSha) = Except.error m := by
  constructor
  · match current, presented with
    | none, none => exact absurd rfl h
    | some c, some p =>
      have hpc : p ≠ c := fun e => h (by rw [e])
      simp [storeWrite, saveContentResult, hpc]
    | some c, none => simp [storeWrite, saveContentResult]
    | none, some p => simp [storeWrite, saveContentResult]
  · intro st m hm
    rw [hm]
    rfl

/-- C3 witness: a concrete stale write is rejected. -/
theorem stale_write_rejected_witness :
    saveContentResult (storeWrite (some "abc") (some "stale") "n1") ≠ Except.ok "n1" :=
  (stale_write_rejected (some "abc") (some "stale") "n1" "n1" (by decide)).1

/-! ## Claim C4 -/

/-- C4 counterexample: with the site-config read failing hard (HTTP 500)
and the news read succeeding, the batch still settles as `synced` (the
code's Loaded indicator), which is not the `error` (LoadFailed) state the
claim requires: `fetchContent` swallowed the hard failure as null. -/
theorem hard_failure_reported_synced :
    (loadAllContent cEmpty rOneHard).2 = SyncStatus.synced ∧
    SyncStatus.synced ≠ SyncStatus.error := by
  exact ⟨rfl, by decide⟩

/-- C4 amended: partial availability does hold - a read that succeeds
populates its cache entry even when a sibling read hits a hard Failure,
which merely leaves its own entry null - but the batch status is `synced`
in every case: a hard Failure is collapsed into the same null result as
NotFound and never yields a LoadFailed status. -/
theorem loadAll_partial_availability (c : ContentState) (r : LoadResponses)
    (stc : Nat) (h1 : r.siteConfig = .httpError stc)
    (d : NewsData) (s : String) (h2 : r.news = .ok d s) :
    (loadAllContent c r).2 = SyncStatus.synced ∧
    (loadAllContent c r).1.siteConfig = none ∧
    (loadAllContent c r).1.news = some { data := d, sha := s } := by
  refine ⟨rfl, ?_, ?_⟩ <;> simp [loadAllContent, h1, h2, fetchContentResult]

/-- C4 witness: the amended statement at the concrete failing batch. -/
theorem loadAll_partial_availability_witness :
    (loadAllContent cEmpty rOneHard).2 = SyncStatus.synced ∧
    (loadAllContent cEmpty rOneHard).1.siteConfig = none ∧
    (loadAllContent cEmpty rOneHard).1.news =
      some { data := { articles := [artOther] }, sha := "shaN" } :=
  loadAll_partial_availability cEmpty rOneHard 500 rfl { articles := [artOther] } "shaN" rfl

/-! ## Claim C5 -/

/-- C5: a 404 ("no such path") comes back from `fetchContent` as the benign
null result rather than an error, Load-all records it as an absent cache
entry while the batch still settles `synced` (not a batch failure), and a
subsequent save on the absent entry starts from the empty default
collection - the saved article becomes the whole document. -/
theorem notFound_is_default (c : ContentState) (r : LoadResponses)
    (h : r.news = .notFound) (a : Article) (s : String) :
    fetchContentResult (ReadResponse.notFound : ReadResponse NewsData) = none ∧
    (loadAllContent c r).1.news = none ∧
    (loadAllContent c r).2 = SyncStatus.synced ∧
    saveNewsStep none a (.ok s) = (some { data := { articles := [a] }, sha := s }, true) := by
  refine ⟨rfl, ?_, rfl, rfl⟩
  simp [loadAllContent, h, fetchContentResult]

/-- C5 witness: the statement at a concrete all-missing batch and save. -/
theorem notFound_is_default_witness :
    fetchContentResult (ReadResponse.notFound : ReadResponse NewsData) = none ∧
    (loadAllContent cEmpty rAllMissing).1.news = none ∧
    (loadAllContent cEmpty rAllMissing).2 = SyncStatus.synced ∧
    saveNewsStep none artDemo (.ok "sha9") =
      (some { data := { articles := [artDemo] }, sha := "sha9" }, true) :=
  notFound_is_default cEmpty rAllMissing rfl artDemo "sha9"

/-! ## Claim C6 -/

/-- C6 counterexample: with completely empty credentials the read and the
write still consult the transport and return whatever it answers - the
operations succeed, so no Unauthenticated failure happened before the
network attempt. -/
theorem unauthenticated_ops_reach_transport :
    fetchContentOp emptyCreds "content/news.json"
        (fun _ => .ok ({ articles := [artOther] } : NewsData) "shaT") =
      some { data := { articles := [artOther] }, sha := "shaT" } ∧
    saveContentOp emptyCreds "content/news.json" (fun _ => .ok "shaU") =
      Except.ok "shaU" := by
  exact ⟨rfl, rfl⟩

/-- C6 amended: none of the four store wrappers checks the session
credentials.  Each always builds its request from whatever credential
fields are in the state - with empty credentials the URL is simply built
from empty strings and an empty Authorization token - and its outcome is
exactly the transport's answer: success and every kind of failure are all
reachable without a session, and no Unauthenticated-style early return
exists. -/
theorem ops_no_credential_gate (d : NewsData) (s m : String) (files : List ImageFile)
    (h : ∀ f ∈ files, isImageName f.name = true) :
    fetchContentOp emptyCreds "content/news.json" (fun _ => .ok d s) =
      some { data := d, sha := s } ∧
    fetchContentOp emptyCreds "content/news.json"
      (fun _ => (.notFound : ReadResponse NewsData)) = none ∧
    saveContentOp emptyCreds "content/news.json" (fun _ => .ok s) = Except.ok s ∧
    saveContentOp emptyCreds "content/news.json" (fun _ => .err 401 m) =
      Except.error m ∧
    loadImagesOp emptyCreds [] (fun _ => .ok files) = files ∧
    deleteImageOp emptyCreds "images/x.png" (fun _ => .ok) = true ∧
    fetchRequest emptyCreds "content/news.json" =
      ({ url := "https://api.github.com/repos///contents/content/news.json?ref=main"
       , authToken := "" } : ApiRequest) := by
  refine ⟨rfl, rfl, rfl, rfl, ?_, rfl, ?_⟩
  · simpa [loadImagesOp, loadImagesResult] using List.filter_eq_self.mpr h
  · rfl

/-- C6 witness: the amended statement at concrete values. -/
theorem ops_no_credential_gate_witness :
    fetchContentOp emptyCreds "content/news.json"
        (fun _ => .ok ({ articles := [] } : NewsData) "s1") =
      some { data := { articles := [] }, sha := "s1" } ∧
    fetchContentOp emptyCreds "content/news.json"
      (fun _ => (.notFound : ReadResponse NewsData)) = none ∧
    saveContentOp emptyCreds "content/news.json" (fun _ => .ok "s1") =
      Except.ok "s1" ∧
    saveContentOp emptyCreds "content/news.json"
        (fun _ => .err 401 "Bad credentials") = Except.error "Bad credentials" ∧
    loadImagesOp emptyCreds [] (fun _ => .ok [imgDemo]) = [imgDemo] ∧
    deleteImageOp emptyCreds "images/x.png" (fun _ => .ok) = true ∧
    fetchRequest emptyCreds "content/news.json" =
      ({ url := "https://api.github.com/repos///contents/content/news.json?ref=main"
       , authToken := "" } : ApiRequest) :=
  ops_no_credential_gate { articles := [] } "s1" "Bad credentials" [imgDemo] (by decide)

/-! ## Claim C7 -/

/-- C7 counterexample: after `logout` the previously cached news document
is still present in the in-memory cache - the cached documents are not
discarded. -/
theorem logout_keeps_cached_docs :
    (logout stDemo).content.news =
      some { data := { articles := [artOther] }, sha := "shaN" } ∧
    (logout stDemo).content.news ≠ none := by
  exact ⟨rfl, by decide⟩

/-- C7 amended: logout clears the durable credential bundle and resets the
in-memory credentials, but leaves the content cache and the image list
exactly as they were; separately, the next dashboard entry always runs a
fresh Load-all whose result replaces every cache entry with the newly
fetched value, independently of what was cached before. -/
theorem logout_behavior (st : AppState) (r : LoadResponses) :
    (logout st).savedAuth = none ∧
    (logout st).github = emptyCreds ∧
    (logout st).content = st.content ∧
    (logout st).images = st.images ∧
    (loadAllContent (logout st).content r).1 =
      { siteConfig := fetchContentResult r.siteConfig
      , news := fetchContentResult r.news
      , projects := fetchContentResult r.projects
      , events := fetchContentResult r.events } := by
  exact ⟨rfl, rfl, rfl, rfl, rfl⟩

/-! ## Claim C10 -/

def evLater : Event :=
  { id := "evt-1", title := "Later Event", date := 20, time := ""
  , location := "", image := "", description := "", registrationLink := ""
  , featured := false, published := some true }

def evSooner : Event :=
  { id := "evt-2", title := "Sooner Event", date := 10, time := ""
  , location := "", image := "", description := "", registrationLink := ""
  , featured := false, published := some true }

/-- C10 counterexample: a stored events collection `[evLater, evSooner]`
(prepend order, newest stored first) is rendered as `[evSooner, evLater]`:
`renderEvents` sorts ascending by date, so the display order differs from
the stored collection order. -/
theorem events_render_not_stored_order :
    renderedEvents [evLater, evSooner] 0 0 = [evSooner, evLater] ∧
    ([evSooner, evLater] : List Event) ≠ [evLater, evSooner] := by
  exact ⟨by decide, by decide⟩

/-- C10 amended: news and project records are displayed as an
order-preserving subsequence of the stored collection order (the
published/featured filters and the limit never reorder), but event records
are displayed sorted ascending by date: the rendered events list is a
permutation of the upcoming published events ordered by date, not the
stored order. -/
theorem display_order_spec (articles : List Article) (projects : List Project)
    (events : List Event) (fa fp : Bool) (la lp le now : Nat) :
    (renderedNews articles fa la).Sublist articles ∧
    (renderedProjects projects fp lp).Sublist projects ∧
    (renderedEvents events now le).Pairwise (fun a b => a.date ≤ b.date) ∧
    (renderedEvents events now 0).Perm
      (events.filter (fun e => e.published != some false && decide (now ≤ e.date))) := by
  haveI htot : IsTotal Event (fun a b => a.date ≤ b.date) :=
    ⟨fun a b => Nat.le_total a.date b.date⟩
  haveI htrans : IsTrans Event (fun a b => a.date ≤ b.date) :=
    ⟨fun _ _ _ => Nat.le_trans⟩
  refine ⟨?_, ?_, ?_, ?_⟩
  · unfold renderedNews
    refine (applyLimit_sublist _ _).trans ?_
    split
    · exact (List.filter_sublist _).trans (List.filter_sublist _)
    · exact List.filter_sublist _
  · unfold renderedProjects
    refine (applyLimit_sublist _ _).trans ?_
    split
    · exact (List.filter_sublist _).trans (List.filter_sublist _)
    · exact List.filter_sublist _
  · unfold renderedEvents
    refine List.Pairwise.sublist (applyLimit_sublist _ _) ?_
    exact List.sorted_insertionSort _ _
  · unfold renderedEvents
    exact List.perm_insertionSort _ _
